import Mathlib

/-!
# Verification of pycomplete's completion-script generator

A shallow embedding of `pycomplete/__init__.py` (the `Completer` class), the
template store interface (`pycomplete/templates/__init__.py`) and the pieces of
the Python standard library the module uses (`hashlib.md5`,
`subprocess.list2cmdline`, `str.replace`, `str.strip`, `os.path.basename`,
`sorted`, `dict` and `set` semantics), together with theorems settling the
specification claims about it.

Conventions of the embedding:
* Python strings are `String`, Python byte values are `Nat` (< 256),
  32-bit arithmetic is `Nat` with explicit `% 4294967296`.
* A Python `dict` is an association list with unique keys built only through
  `dinsert` (insertion keeps the position of an existing key, appends fresh
  keys), mirroring CPython's insertion-ordered dicts.
* A Python `set` collecting strings is a duplicate-free list built through
  `sadd`; every set the module builds is passed to `sorted` before use, so
  insertion order never reaches the output.
* `None` help strings behave exactly like `""` in every code path the claims
  exercise (`if description:` treats them alike), so command/option help is
  carried as `String`, and `_zsh_describe`'s `description` parameter, whose
  `None` case the code distinguishes syntactically, is an `Option String`.
-/

namespace PyComplete

/-- Python `s.replace(c, rep)` for a single-character needle `c`
(the module only ever replaces the single characters `:`, `-` and `'`). -/
def pyReplaceChar (s : String) (c : Char) (rep : String) : String :=
  String.mk (s.data.flatMap fun x => if x = c then rep.data else [x])

/-- Python `s.strip(chr)`: remove every leading and trailing occurrence of
the character `chr`. -/
def pyStrip (s : String) (chr : Char) : String :=
  String.mk (((s.data.dropWhile (· = chr)).reverse.dropWhile (· = chr)).reverse)

/-- Python `s[2:]` on a string. -/
def pyDrop2 (s : String) : String :=
  String.mk (s.data.drop 2)

/-- Python `set.add` on a set modelled as a duplicate-free list
(fresh elements are appended). -/
def sadd (s : List String) (x : String) : List String :=
  if x ∈ s then s else s ++ [x]

/-- Python `d[k] = v` on an insertion-ordered dict modelled as an association
list with unique keys: an existing key keeps its position and gets the new
value, a fresh key is appended. -/
def dinsert {α : Type} : List (String × α) → String → α → List (String × α)
  | [], k, v => [(k, v)]
  | p :: rest, k, v =>
      if p.1 = k then (k, v) :: rest else p :: dinsert rest k v

/-- Python `d[k]` / `d.get(k)` on the dict model: value at the first
occurrence of the key. -/
def dlookup {α : Type} (m : List (String × α)) (k : String) : Option α :=
  (m.find? (fun p => p.1 = k)).map (fun p => p.2)

/-- Python `sorted` on a list of strings (ascending lexicographic order by
code point, which is exactly `String`'s linear order). -/
def pysort (l : List String) : List String :=
  l.insertionSort (fun a b => a ≤ b)

/-- Python's tuple ordering on `(name, help)` pairs of strings, as used by
`sorted(command.get_options())`. -/
def pairLe (a b : String × String) : Prop :=
  a.1 < b.1 ∨ (a.1 = b.1 ∧ a.2 ≤ b.2)

instance : DecidableRel pairLe := fun a b =>
  inferInstanceAs (Decidable (a.1 < b.1 ∨ (a.1 = b.1 ∧ a.2 ≤ b.2)))

/-- Python `sorted` on `(name, help)` pairs (tuple comparison). -/
def sortPairsStr (l : List (String × String)) : List (String × String) :=
  l.insertionSort pairLe

/-- Python `"x".join(l)`. -/
def pyJoin (sep : String) : List String → String
  | [] => ""
  | [x] => x
  | x :: xs => x ++ sep ++ pyJoin sep xs

/-- Python `s[0:n]` on a string. -/
def pyTake (s : String) (n : Nat) : String :=
  String.mk (s.data.take n)

end PyComplete

namespace PyComplete.MD5

/-! A faithful executable model of `hashlib.md5(...).hexdigest()` over the
UTF-8 encoding of a string, used by `Completer._generate_function_name`.
32-bit words are `Nat` values kept below `2 ^ 32` by explicit reduction. -/

/-- `2 ^ 32`. -/
def M32 : Nat := 4294967296

/-- Bitwise complement on a 32-bit word. -/
def not32 (x : Nat) : Nat := x ^^^ 4294967295

/-- Left rotation of a 32-bit word by `s` places (`0 < s < 32`). -/
def rotl32 (x s : Nat) : Nat :=
  ((x <<< s) ||| (x >>> (32 - s))) % M32

/-- UTF-8 encoding of a single code point, as byte values. -/
def utf8Nat (n : Nat) : List Nat :=
  if n < 128 then [n]
  else if n < 2048 then
    [192 ||| (n >>> 6), 128 ||| (n &&& 63)]
  else if n < 65536 then
    [224 ||| (n >>> 12), 128 ||| ((n >>> 6) &&& 63), 128 ||| (n &&& 63)]
  else
    [240 ||| (n >>> 18), 128 ||| ((n >>> 12) &&& 63),
     128 ||| ((n >>> 6) &&& 63), 128 ||| (n &&& 63)]

/-- Python `s.encode("utf-8")` as a list of byte values. -/
def utf8Bytes (s : String) : List Nat :=
  s.data.flatMap fun c => utf8Nat c.toNat

/-- The 64 MD5 sine-derived round constants. -/
def md5K : List Nat :=
  [0xd76aa478, 0xe8c7b756, 0x242070db, 0xc1bdceee, 0xf57c0faf, 0x4787c62a, 0xa8304613, 0xfd469501,
   0x698098d8, 0x8b44f7af, 0xffff5bb1, 0x895cd7be, 0x6b901122, 0xfd987193, 0xa679438e, 0x49b40821,
   0xf61e2562, 0xc040b340, 0x265e5a51, 0xe9b6c7aa, 0xd62f105d, 0x02441453, 0xd8a1e681, 0xe7d3fbc8,
   0x21e1cde6, 0xc33707d6, 0xf4d50d87, 0x455a14ed, 0xa9e3e905, 0xfcefa3f8, 0x676f02d9, 0x8d2a4c8a,
   0xfffa3942, 0x8771f681, 0x6d9d6122, 0xfde5380c, 0xa4beea44, 0x4bdecfa9, 0xf6bb4b60, 0xbebfbc70,
   0x289b7ec6, 0xeaa127fa, 0xd4ef3085, 0x04881d05, 0xd9d4d039, 0xe6db99e5, 0x1fa27cf8, 0xc4ac5665,
   0xf4292244, 0x432aff97, 0xab9423a7, 0xfc93a039, 0x655b59c3, 0x8f0ccc92, 0xffeff47d, 0x85845dd1,
   0x6fa87e4f, 0xfe2ce6e0, 0xa3014314, 0x4e0811a1, 0xf7537e82, 0xbd3af235, 0x2ad7d2bb, 0xeb86d391]

/-- The 64 per-round left-rotation amounts. -/
def md5S : List Nat :=
  [7, 12, 17, 22, 7, 12, 17, 22, 7, 12, 17, 22, 7, 12, 17, 22,
   5, 9, 14, 20, 5, 9, 14, 20, 5, 9, 14, 20, 5, 9, 14, 20,
   4, 11, 16, 23, 4, 11, 16, 23, 4, 11, 16, 23, 4, 11, 16, 23,
   6, 10, 15, 21, 6, 10, 15, 21, 6, 10, 15, 21, 6, 10, 15, 21]

/-- Little-endian bytes (8 of them) of the 64-bit message bit length. -/
def le8 (n : Nat) : List Nat :=
  (List.range 8).map fun i => (n >>> (8 * i)) % 256

/-- Little-endian bytes (4 of them) of a 32-bit word. -/
def le4 (n : Nat) : List Nat :=
  (List.range 4).map fun i => (n >>> (8 * i)) % 256

/-- MD5 padding: append `0x80`, zero bytes up to 56 mod 64, then the 8-byte
little-endian bit length. -/
def md5Pad (msg : List Nat) : List Nat :=
  let padLen := (120 - ((msg.length + 1) % 64)) % 64
  msg ++ [0x80] ++ List.replicate padLen 0 ++ le8 ((8 * msg.length) % (2 ^ 64))

/-- Split a byte list into 64-byte blocks; the first argument is recursion
fuel, always called with at least the list's length. -/
def chunksAux : Nat → List Nat → List (List Nat)
  | _, [] => []
  | 0, l => [l]
  | fuel + 1, l => l.take 64 :: chunksAux fuel (l.drop 64)

/-- Split the padded message into 64-byte blocks. -/
def chunks64 (l : List Nat) : List (List Nat) :=
  chunksAux l.length l

/-- A 64-byte block as 16 little-endian 32-bit words. -/
def toWordsLE : List Nat → List Nat
  | b0 :: b1 :: b2 :: b3 :: rest =>
      (b0 + 256 * b1 + 65536 * b2 + 16777216 * b3) :: toWordsLE rest
  | _ => []

/-- One MD5 round (`i` counts 0..63) on the state `(a, b, c, d)`. -/
def md5Round (M : List Nat) (st : Nat × Nat × Nat × Nat) (i : Nat) :
    Nat × Nat × Nat × Nat :=
  let a := st.1
  let b := st.2.1
  let c := st.2.2.1
  let d := st.2.2.2
  let fg : Nat × Nat :=
    if i < 16 then ((b &&& c) ||| (not32 b &&& d), i)
    else if i < 32 then ((d &&& b) ||| (not32 d &&& c), (5 * i + 1) % 16)
    else if i < 48 then (b ^^^ c ^^^ d, (3 * i + 5) % 16)
    else (c ^^^ (b ||| not32 d), (7 * i) % 16)
  let f := (fg.1 + a + md5K.getD i 0 + M.getD fg.2 0) % M32
  (d, (b + rotl32 f (md5S.getD i 0)) % M32, b, c)

/-- Process one 64-byte block, updating the running state. -/
def md5Block (st : Nat × Nat × Nat × Nat) (block : List Nat) :
    Nat × Nat × Nat × Nat :=
  let M := toWordsLE block
  let r := (List.range 64).foldl (md5Round M) st
  ((st.1 + r.1) % M32, (st.2.1 + r.2.1) % M32,
   (st.2.2.1 + r.2.2.1) % M32, (st.2.2.2 + r.2.2.2) % M32)

/-- The hex digit for a value below 16 (lowercase, as `hexdigest` emits). -/
def hexDigit (n : Nat) : Char :=
  if n < 10 then Char.ofNat (48 + n) else Char.ofNat (87 + n)

/-- Two lowercase hex digits of a byte value. -/
def byteHex (b : Nat) : List Char :=
  [hexDigit (b / 16), hexDigit (b % 16)]

/-- The 16 digest bytes of the MD5 of a byte sequence. -/
def md5Digest (msg : List Nat) : List Nat :=
  let st := (chunks64 (md5Pad msg)).foldl md5Block
    (0x67452301, 0xefcdab89, 0x98badcfe, 0x10325476)
  le4 st.1 ++ le4 st.2.1 ++ le4 st.2.2.1 ++ le4 st.2.2.2

/-- Python `hashlib.md5(s.encode("utf-8")).hexdigest()`. -/
def md5hex (s : String) : String :=
  String.mk ((md5Digest (utf8Bytes s)).flatMap byteHex)

end PyComplete.MD5

namespace PyComplete

/-- The character class of `re.sub(r'(["\x27#&;`|*?~<>^()\[\]{}$\\\x0A\xFF])', ...)`
in `Completer._zsh_describe`: double quote, single quote, `#&;`, backtick,
`|*?~<>^()[]{}$`, backslash, newline, and U+00FF. -/
def zshMetaChars : List Char :=
  ("\"\x27#&;`|*?~<>^()[]\x7b\x7d$\\\nÿ").data

/-- `re.sub(r'(["\x27#&;`|*?~<>^()\[\]{}$\\\x0A\xFF])', r'\\\1', s)`: prefix a
backslash to every occurrence of a character of the class. -/
def escapeZshMeta (s : String) : String :=
  String.mk (s.data.flatMap fun c => if c ∈ zshMetaChars then ['\\', c] else [c])

/-- The character loop of `subprocess.list2cmdline` (CPython): returns the
translated body and the count of backslashes pending at the end of the
argument (`bs_buf`). -/
def l2cChars : List Char → Nat → List Char × Nat
  | [], bs => ([], bs)
  | c :: rest, bs =>
      if c = '\\' then l2cChars rest (bs + 1)
      else if c = '"' then
        let r := l2cChars rest 0
        (List.replicate (2 * bs) '\\' ++ '\\' :: '"' :: r.1, r.2)
      else
        let r := l2cChars rest 0
        (List.replicate bs '\\' ++ c :: r.1, r.2)

/-- `subprocess.list2cmdline([arg])` for a single argument, faithful to the
CPython implementation: quote iff the argument contains a space or tab or is
empty; double the backslashes preceding every double quote and escape the
quote; on a quoted argument the trailing backslash run is doubled before the
closing quote. -/
def list2cmdline1 (arg : String) : String :=
  let needquote := arg.data.contains ' ' || arg.data.contains '\t' || arg = ""
  let r := l2cChars arg.data 0
  let core := r.1 ++ List.replicate r.2 '\\'
  if needquote then
    String.mk ('"' :: (core ++ List.replicate r.2 '\\' ++ ['"']))
  else
    String.mk core

/-- `Completer._zsh_describe(value, description)`: `'"' + value` with colons
backslash-escaped; if `description` is truthy (neither `None` nor empty),
append `:` plus the metacharacter-escaped description passed through
`subprocess.list2cmdline` and stripped of double quotes at both ends; close
the double quote. -/
def zshDescribe (value : String) (description : Option String) : String :=
  let v := "\"" ++ pyReplaceChar value ':' "\\:"
  let v :=
    match description with
    | some d =>
        if d = "" then v
        else v ++ ":" ++ pyStrip (list2cmdline1 (escapeZshMeta d)) '"'
    | none => v
  v ++ "\""

/-- `[A-Za-z0-9_]`, the word characters kept by
`Completer._sanitize_for_function_name`. -/
def isFnChar (c : Char) : Bool :=
  c.isAlphanum || c = '_'

/-- `Completer._sanitize_for_function_name`: `name.replace("-", "_")` followed
by `re.sub("[^A-Za-z0-9_]+", "", name)` — deleting every maximal run of
non-word characters, which is the same as deleting every non-word character. -/
def sanitizeForFunctionName (name : String) : String :=
  String.mk ((pyReplaceChar name '-' "_").data.filter isFnChar)

/-- `Completer._generate_function_name(script_name, script_path)`:
`"_{sanitized}_{md5(script_path).hexdigest()[0:16]}_complete"`. -/
def generateFunctionName (scriptName scriptPath : String) : String :=
  "_" ++ sanitizeForFunctionName scriptName ++ "_"
    ++ pyTake (MD5.md5hex scriptPath) 16 ++ "_complete"

/-- The uniform command-tree view produced by the getters
(`BaseGetter`): a help string, the `get_options()` pairs in declaration
order, and the `get_commands()` mapping in insertion order. Python's `None`
help is carried as `""` (every code path the claims exercise treats the two
alike). Subcommand and option names are unique within one command — the
getters read them out of Python dicts and de-duplicating frameworks. -/
inductive Cmd : Type where
  | mk (help : String) (options : List (String × String))
       (commands : List (String × Cmd))

/-- The command's `help` property. -/
def Cmd.help : Cmd → String
  | .mk h _ _ => h

/-- The command's `get_options()` pairs. -/
def Cmd.options : Cmd → List (String × String)
  | .mk _ o _ => o

/-- The command's `get_commands()` items. -/
def Cmd.commands : Cmd → List (String × Cmd)
  | .mk _ _ c => c

/-- The `Completer`'s state after `__init__`: the selected getter's command
tree and the `prog` alias list. -/
structure Completer : Type where
  getter : Cmd
  prog : List String

/-- `SUPPORTED_SHELLS` from `pycomplete/templates/__init__.py`. -/
def SUPPORTED_SHELLS : List String := ["bash", "zsh", "fish", "powershell"]

/-- `__version__`. -/
def VERSION : String := "0.4.0"

/-- `os.path.basename` on POSIX: the last path segment, i.e. the characters
after the last `/` (the whole string when there is no `/`). -/
def pyBasename (p : String) : String :=
  String.mk ((p.data.reverse.takeWhile fun c => c ≠ '/').reverse)

/-- `Completer.get_shell_type()`: read the `SHELL` environment variable
(modelled as an `Option String` input, `none` for an unset variable); fail
when it is unset or empty, otherwise return its basename. -/
def getShellType (env : Option String) : Except String String :=
  match env with
  | none =>
      .error ("Could not read SHELL environment variable. "
        ++ "Please specify your shell type by passing it as the first argument.")
  | some s =>
      if s = "" then
        .error ("Could not read SHELL environment variable. "
          ++ "Please specify your shell type by passing it as the first argument.")
      else
        .ok (pyBasename s)

end PyComplete

namespace PyComplete

/-- Modelled from the spec: the per-dialect `.tpl` template files shipped with
the package are not part of the inspected sources (only
`pycomplete/templates/__init__.py`, which loads them, is). Per §2 and §6 of
the specification a template is immutable text with named substitution slots
(delimiter `%`); we model it as an interleaving of literal chunks and slot
names. -/
inductive TChunk : Type where
  | lit (s : String)
  | slot (name : String)

/-- Modelled from the spec: a dialect template is a sequence of chunks. -/
def Template : Type := List TChunk

/-- Modelled from the spec: `Template.safe_substitute` — replace each known
slot by its value and leave unknown slots in place. -/
def safeSubstitute (t : Template) (m : List (String × String)) : String :=
  String.join (t.map fun ch =>
    match ch with
    | .lit s => s
    | .slot n => (dlookup m n).getD ("%" ++ n))

/-- Modelled from the spec: the template store `TEMPLATES`, one template per
supported shell. -/
structure Templates : Type where
  bash : Template
  zsh : Template
  fish : Template
  powershell : Template

/-- Append an empty string after every block except the last, mirroring
`if i < len(blocks) - 1: desc.append("")` / `result.append("")`. -/
def withSeps {α : Type} (e : α) : List (List α) → List (List α)
  | [] => []
  | [x] => [x]
  | x :: xs => (x ++ [e]) :: withSeps e xs

/-! ## render_bash -/

/-- The `global_options` set of `render_bash` / `render_powershell`: option
names of the root command collected into a set. -/
def globalOptionsSet (c : Cmd) : List String :=
  c.options.foldl (fun s o => sadd s o.1) []

/-- The `commands` list of `render_bash` / `render_powershell`: one entry per
`get_commands()` item, in iteration order. -/
def commandNamesRaw (c : Cmd) : List String :=
  c.commands.map (fun p => p.1)

/-- The `commands_options` dict of `render_bash` / `render_powershell`:
command name to its list of option names. -/
def commandsOptionsDict (c : Cmd) : List (String × List String) :=
  c.commands.foldl (fun m p => dinsert m p.1 (p.2.options.map (fun o => o.1))) []

/-- `commands = sorted(commands)` in `render_bash`: the sorted command names
driving both the `coms` slot and the `case` blocks. -/
def bashCommandNames (c : Cmd) : List String :=
  pysort (commandNamesRaw c)

/-- `self._zsh_describe(opt, None).strip('"')` in `render_bash`. -/
def bashOptToken (o : String) : String :=
  pyStrip (zshDescribe o none) '"'

/-- One `case` block of `render_bash`'s `command_list` (without the blank
separator line). -/
def bashBlock (c : Cmd) (name : String) : List String :=
  let options := pysort ((dlookup (commandsOptionsDict c) name).getD [])
  ["            (" ++ name ++ ")",
   "            opts=\"" ++ pyJoin " " (options.map bashOptToken) ++ "\"",
   "            ;;"]

/-- The `opts` slot of `render_bash`. -/
def bashOptsSlot (c : Cmd) : String :=
  pyJoin " " (pysort (globalOptionsSet c))

/-- The `coms` slot of `render_bash`. -/
def bashComsSlot (c : Cmd) : String :=
  pyJoin " " (bashCommandNames c)

/-- The `command_list` slot of `render_bash`. -/
def bashCommandListSlot (c : Cmd) : String :=
  pyJoin "\n" ((withSeps "" ((bashCommandNames c).map (bashBlock c))).map (pyJoin "\n"))

/-- The `compdefs` slot of `render_bash`: one `complete` line per prog alias
(all of `self.prog`). -/
def bashCompdefs (function : String) (aliases : List String) : String :=
  pyJoin "\n" (aliases.map fun a => "complete -o default -F " ++ function ++ " " ++ a)

/-- The slot mapping `render_bash` passes to `safe_substitute`. -/
def bashMap (c : Cmd) (p0 : String) (prog : List String) (path : String) :
    List (String × String) :=
  let function := generateFunctionName p0 path
  [("script_name", p0), ("function", function), ("opts", bashOptsSlot c),
   ("coms", bashComsSlot c), ("command_list", bashCommandListSlot c),
   ("compdefs", bashCompdefs function prog), ("version", VERSION)]

/-- `Completer.render_bash`: fails only when `self.prog` is empty (Python's
`self.prog[0]` raises `IndexError` there). `path` is the resolved
`os.path.realpath(sys.argv[0])`, an input of the embedding. -/
def renderBash (tpl : Template) (co : Completer) (path : String) :
    Except String String :=
  match co.prog with
  | [] => .error "IndexError: list index out of range"
  | p0 :: _ => .ok (safeSubstitute tpl (bashMap co.getter p0 co.prog path))

/-! ## render_zsh -/

/-- The shared `options_descriptions` dict of `render_zsh`: written first by
the root command's option loop, then by every subcommand's option loop in
`get_commands()` iteration order; an option name occurring twice keeps the
last written help. -/
def zshOptionsDescriptions (c : Cmd) : List (String × String) :=
  (c.options ++ c.commands.flatMap (fun p => p.2.options)).foldl
    (fun m o => dinsert m o.1 o.2) []

/-- The per-command `commands_options_descriptions[name]` dict of
`render_zsh`, built from that command's own options only. -/
def zshPerCommandDescs (cmd : Cmd) : List (String × String) :=
  cmd.options.foldl (fun m o => dinsert m o.1 o.2) []

/-- The `commands_options_descriptions` dict of `render_zsh`. -/
def zshCmdOptDescsDict (c : Cmd) : List (String × List (String × String)) :=
  c.commands.foldl (fun m p => dinsert m p.1 (zshPerCommandDescs p.2)) []

/-- The `commands_descriptions` list of `render_zsh`: one
`_zsh_describe(name, command.help)` token per `get_commands()` item. -/
def zshCommandsDescriptions (c : Cmd) : List String :=
  c.commands.map (fun p => zshDescribe p.1 (some p.2.help))

/-- `commands = sorted(list(commands_options.keys()))` in `render_zsh`. -/
def zshCommandNames (c : Cmd) : List String :=
  pysort ((commandsOptionsDict c).map (fun p => p.1))

/-- One `case` block of `render_zsh`'s `command_list`. -/
def zshBlock (c : Cmd) (name : String) : List String :=
  let options := pysort ((dlookup (commandsOptionsDict c) name).getD [])
  let percmd := (dlookup (zshCmdOptDescsDict c) name).getD []
  let tokens := options.map fun o => zshDescribe o (some ((dlookup percmd o).getD ""))
  ["            (" ++ name ++ ")",
   "            opts=(" ++ pyJoin " " tokens ++ ")",
   "            ;;"]

/-- The `opts` slot of `render_zsh`: one describe token per root-level option
name, with the help text looked up in the shared `options_descriptions`
dict, the tokens sorted. -/
def zshOptsSlot (c : Cmd) : String :=
  pyJoin " " (pysort ((globalOptionsSet c).map fun o =>
    zshDescribe o (some ((dlookup (zshOptionsDescriptions c) o).getD ""))))

/-- The `coms` slot of `render_zsh`: the describe tokens of the commands,
sorted as strings. -/
def zshComsSlot (c : Cmd) : String :=
  pyJoin " " (pysort (zshCommandsDescriptions c))

/-- The `command_list` slot of `render_zsh`. -/
def zshCommandListSlot (c : Cmd) : String :=
  pyJoin "\n" ((withSeps "" ((zshCommandNames c).map (zshBlock c))).map (pyJoin "\n"))

/-- The `compdefs` slot of `render_zsh`: one `compdef` line per secondary
alias (`self.prog[1:]`). -/
def zshCompdefs (function : String) (aliases : List String) : String :=
  pyJoin "\n" (aliases.map fun a => "compdef " ++ function ++ " " ++ a)

/-- The slot mapping `render_zsh` passes to `safe_substitute`. -/
def zshMap (c : Cmd) (p0 : String) (aliases : List String) (path : String) :
    List (String × String) :=
  let function := generateFunctionName p0 path
  [("script_name", p0), ("function", function), ("opts", zshOptsSlot c),
   ("coms", zshComsSlot c), ("command_list", zshCommandListSlot c),
   ("compdefs", zshCompdefs function aliases), ("version", VERSION)]

/-- `Completer.render_zsh` (`script_name, *aliases = self.prog` raises
`ValueError` on an empty prog list). -/
def renderZsh (tpl : Template) (co : Completer) (path : String) :
    Except String String :=
  match co.prog with
  | [] => .error "ValueError: not enough values to unpack"
  | p0 :: aliases => .ok (safeSubstitute tpl (zshMap co.getter p0 aliases path))

/-! ## render_powershell -/

/-- The `opts` slot of `render_powershell`. -/
def psOptsSlot (c : Cmd) : String :=
  pyJoin ", " ((pysort (globalOptionsSet c)).map fun o => "\"" ++ o ++ "\"")

/-- The `coms` slot of `render_powershell`. -/
def psComsSlot (c : Cmd) : String :=
  pyJoin ", " ((pysort (commandNamesRaw c)).map fun n => "\"" ++ n ++ "\"")

/-- One per-command block of `render_powershell`'s `command_list`:
`                "name" { $opts = @(...) }`. -/
def psBlock (name : String) (options : List String) : String :=
  "                \"" ++ name ++ "\" \x7b $opts = @("
    ++ pyJoin ", " ((pysort options).map fun o => "\"" ++ o ++ "\"")
    ++ ") \x7d"

/-- The `command_list` slot of `render_powershell`: one block per
`commands_options.items()` entry, in dict insertion order (not sorted). -/
def psCommandListSlot (c : Cmd) : String :=
  pyJoin "\n" ((commandsOptionsDict c).map fun p => psBlock p.1 p.2)

/-- The names of `render_powershell`'s per-command blocks in emission
order. -/
def psBlockNames (c : Cmd) : List String :=
  (commandsOptionsDict c).map (fun p => p.1)

/-- The slot mapping `render_powershell` passes to `safe_substitute`. -/
def psMap (c : Cmd) (p0 : String) (prog : List String) (path : String) :
    List (String × String) :=
  let function := generateFunctionName p0 path
  [("script_name", p0), ("function", function),
   ("aliases", pyJoin ", " (prog.map fun n => "\"" ++ n ++ "\"")),
   ("opts", psOptsSlot c), ("coms", psComsSlot c),
   ("command_list", psCommandListSlot c), ("version", VERSION)]

/-- `Completer.render_powershell`. -/
def renderPowershell (tpl : Template) (co : Completer) (path : String) :
    Except String String :=
  match co.prog with
  | [] => .error "IndexError: list index out of range"
  | p0 :: _ => .ok (safeSubstitute tpl (psMap co.getter p0 co.prog path))

end PyComplete

namespace PyComplete

/-! ## render_fish -/

/-- `help.replace("'", "\\'")` as applied to every help text interpolated
into a fish completion line. -/
def escSq (s : String) : String :=
  pyReplaceChar s '\x27' "\\\x27"

/-- Python `sorted` on `get_commands().items()`: keys are unique (they come
out of a dict), so the tuple comparison never reaches the second component
and the sort is by name. -/
def keyLe (a b : String × Cmd) : Prop := a.1 ≤ b.1

instance : DecidableRel keyLe := fun a b =>
  inferInstanceAs (Decidable (a.1 ≤ b.1))

/-- `sorted(subcommands.items())`. -/
def sortPairsByKey (l : List (String × Cmd)) : List (String × Cmd) :=
  l.insertionSort keyLe

/-- A root-level option line of `render_fish`
(`complete -c ... -n '__fish..._no_subcommand' -l ... -d '...'`); the flag
name is `option_name[2:]` — the spelling with its first two characters
removed. -/
def fishOptLine (scriptName function : String) (oh : String × String) : String :=
  "complete -c " ++ scriptName ++ " -n '__fish" ++ function
    ++ "_no_subcommand' -l " ++ pyDrop2 oh.1 ++ " -d '" ++ escSq oh.2 ++ "'"

/-- An option line inside `cmd_completion`
(`complete -c ... -A -n '<condition>' -l ... -d '...'`); the flag name again
is `option_name[2:]`. -/
def fishCmdOptLine (scriptName condition : String) (oh : String × String) : String :=
  "complete -c " ++ scriptName ++ " -A -n '" ++ condition ++ "' -l "
    ++ pyDrop2 oh.1 ++ " -d '" ++ escSq oh.2 ++ "'"

/-- `cmd_completion(name, command, parents)` of `render_fish`: the lines of
one command's block, recursing into its subcommands in sorted order with
blank lines between siblings. -/
def cmdCompletion (scriptName function : String) (parents : List String)
    (name : String) : Cmd → List String
  | Cmd.mk help opts subs =>
    let header := "# " ++ pyJoin " " (parents ++ [name])
    let parentsJoin := pyJoin "_" parents
    let seeParent := pyJoin "; and "
      (parents.map fun p => "__fish_seen_subcommand_from " ++ p)
    let introLine :=
      if parents.isEmpty then
        "complete -c " ++ scriptName ++ " -f -n '__fish" ++ function
          ++ "_no_subcommand' -a " ++ name ++ " -d '" ++ escSq help ++ "'"
      else
        "complete -c " ++ scriptName ++ " -f -n '" ++ seeParent
          ++ "; and not __fish_seen_subcommand_from $" ++ parentsJoin
          ++ "_subcommands' -a " ++ name ++ " -d '" ++ escSq help ++ "'"
    let seeThis := "__fish_seen_subcommand_from " ++ name
    let optLines := (sortPairsStr opts).map fun oh =>
      fishCmdOptLine scriptName
        (if parents.isEmpty then seeThis else seeParent ++ "; and " ++ seeThis) oh
    if subs.isEmpty then
      header :: introLine :: optLines
    else
      let subVar :=
        (if parents.isEmpty then name else parentsJoin ++ "_" ++ name)
          ++ "_subcommands"
      let setLine := "set -l " ++ subVar ++ " "
        ++ pyJoin " " (pysort (subs.map (fun p => p.1)))
      let subBlocks := (sortPairsByKey subs).attach.map fun x =>
        cmdCompletion scriptName function (parents ++ [name]) x.1.1 x.1.2
      header :: introLine :: optLines
        ++ ["# " ++ name ++ " subcommands", setLine]
        ++ List.flatten (withSeps "" subBlocks)
termination_by c => sizeOf c
decreasing_by
  rename_i opts subs hne
  have hmem : x.1 ∈ subs := by
    have := x.2
    simpa [sortPairsByKey, List.mem_insertionSort] using this
  have h1 : sizeOf x.1 < sizeOf subs := List.sizeOf_lt_of_mem hmem
  have h2 : sizeOf x.1 = 1 + sizeOf x.1.1 + sizeOf x.1.2 := by
    cases x.1 <;> simp
  simp only [Cmd.mk.sizeOf_spec]
  omega

/-- The `opts` slot of `render_fish`: one line per root option, the options
sorted as `(name, help)` pairs. -/
def fishOptsSlot (c : Cmd) (scriptName function : String) : String :=
  pyJoin "\n" ((sortPairsStr c.options).map (fishOptLine scriptName function))

/-- The `cmd_names` set of `render_fish`, filled while iterating the sorted
command items. -/
def fishCmdNameSet (c : Cmd) : List String :=
  (sortPairsByKey c.commands).foldl (fun s p => sadd s p.1) []

/-- The `cmds_names` slot of `render_fish`. -/
def fishCmdNamesSlot (c : Cmd) : String :=
  pyJoin " " (pysort (fishCmdNameSet c))

/-- The `cmds` slot of `render_fish`: the top-level command blocks in sorted
order, separated by blank lines. -/
def fishCmdsSlot (c : Cmd) (scriptName function : String) : String :=
  pyJoin "\n" (List.flatten (withSeps ""
    ((sortPairsByKey c.commands).map fun p =>
      cmdCompletion scriptName function [] p.1 p.2)))

/-- The slot mapping `render_fish` passes to `safe_substitute`. -/
def fishMap (c : Cmd) (p0 : String) (path : String) : List (String × String) :=
  let function := generateFunctionName p0 path
  [("script_name", p0), ("function", function),
   ("cmds_names", fishCmdNamesSlot c), ("opts", fishOptsSlot c p0 function),
   ("cmds", fishCmdsSlot c p0 function), ("version", VERSION)]

/-- `Completer.render_fish`. -/
def renderFish (tpl : Template) (co : Completer) (path : String) :
    Except String String :=
  match co.prog with
  | [] => .error "IndexError: list index out of range"
  | p0 :: _ => .ok (safeSubstitute tpl (fishMap co.getter p0 path))

/-! ## render -/

/-- The `getattr(self, "render_{}".format(shell))()` dispatch for a shell
known to be supported. -/
def dispatchRender (tpls : Templates) (co : Completer) (path : String)
    (sh : String) : Except String String :=
  if sh = "bash" then renderBash tpls.bash co path
  else if sh = "zsh" then renderZsh tpls.zsh co path
  else if sh = "fish" then renderFish tpls.fish co path
  else renderPowershell tpls.powershell co path

/-- The body of `Completer.render` once the shell name is in hand: validate
it against `SUPPORTED_SHELLS`, then dispatch. -/
def renderShell (tpls : Templates) (co : Completer) (path : String)
    (sh : String) : Except String String :=
  if sh ∈ SUPPORTED_SHELLS then dispatchRender tpls co path sh
  else
    .error ("[shell] argument must be one of "
      ++ pyJoin ", " SUPPORTED_SHELLS)

/-- `Completer.render(shell)`: resolve the shell from the `SHELL` environment
variable when the argument is omitted, then validate and dispatch. `env`
models `os.getenv("SHELL")` and is read only in the `shell = none` branch. -/
def render (tpls : Templates) (co : Completer) (path : String)
    (env : Option String) (shell : Option String) : Except String String :=
  match shell with
  | none => (getShellType env).bind (renderShell tpls co path)
  | some sh => renderShell tpls co path sh

/-- `render` as a state transformer: the source method bodies contain no
assignment to any attribute of `self`, so the state-passing translation
returns the receiver unchanged alongside the output. -/
def renderSt (tpls : Templates) (co : Completer) (path : String)
    (env : Option String) (shell : Option String) :
    Except String (String × Completer) :=
  (render tpls co path env shell).map fun out => (out, co)

/-- `render_bash` as a state transformer. -/
def renderBashSt (tpl : Template) (co : Completer) (path : String) :
    Except String (String × Completer) :=
  (renderBash tpl co path).map fun out => (out, co)

/-- `render_zsh` as a state transformer. -/
def renderZshSt (tpl : Template) (co : Completer) (path : String) :
    Except String (String × Completer) :=
  (renderZsh tpl co path).map fun out => (out, co)

/-- `render_fish` as a state transformer. -/
def renderFishSt (tpl : Template) (co : Completer) (path : String) :
    Except String (String × Completer) :=
  (renderFish tpl co path).map fun out => (out, co)

/-- `render_powershell` as a state transformer. -/
def renderPowershellSt (tpl : Template) (co : Completer) (path : String) :
    Except String (String × Completer) :=
  (renderPowershell tpl co path).map fun out => (out, co)

end PyComplete

namespace PyComplete

/-! ## Statement-side definitions written from the claims' words -/

/-- The claim's first step on the value: every `:` backslash-escaped. -/
def escapeColons (v : String) : String :=
  pyReplaceChar v ':' "\\:"

/-- The claim's "shell-argument-quoting step with its surrounding double
quotes stripped". -/
def shellQuoteStripDquotes (d : String) : String :=
  pyStrip (list2cmdline1 d) '"'

/-- The describe formatter as claim C5 words it: a double-quoted token of the
colon-escaped value; a truthy description is metacharacter-escaped, then
shell-quoted and quote-stripped, and appended after `:`. -/
def zshDescribeSpec (value : String) (description : Option String) : String :=
  match description with
  | none => "\"" ++ escapeColons value ++ "\""
  | some d =>
      if d = "" then "\"" ++ escapeColons value ++ "\""
      else "\"" ++ escapeColons value ++ ":"
        ++ shellQuoteStripDquotes (escapeZshMeta d) ++ "\""

/-- The sanitize step as amended claim C4 words it (no lowercasing): map `-`
to `_`, keep `[A-Za-z0-9_]`, strip everything else. -/
def sanitizeAmended (name : String) : String :=
  String.mk ((name.data.map fun c => if c = '-' then '_' else c).filter isFnChar)

/-- The sanitize step exactly as claim C4 states it, including the claimed
lowercasing of the input. -/
def sanitizeClaimed (name : String) : String :=
  String.mk (((name.data.map Char.toLower).map fun c =>
    if c = '-' then '_' else c).filter isFnChar)

/-- The completion-function name exactly as claim C4 states it (using the
claimed lowercasing sanitize). -/
def functionNameClaimed (scriptName scriptPath : String) : String :=
  "_" ++ sanitizeClaimed scriptName ++ "_"
    ++ pyTake (MD5.md5hex scriptPath) 16 ++ "_complete"

/-- First-occurrence de-duplication of a name list (the order in which a
Python dict keyed by these names lists its keys). -/
def pydedup (l : List String) : List String :=
  l.foldl sadd []

/-- A two-command tree whose `get_commands()` order is descending:
`{"b": leaf, "a": leaf}`. -/
def psCounterexampleCmd : Cmd :=
  .mk "" [] [("b", .mk "" [] []), ("a", .mk "" [] [])]

/-- A tree with commands `a` (help `z`) and `a!` (no help): their zsh
describe tokens sort as `"a!"` before `"a:z"` although `"a" < "a!"`. -/
def zshCounterexampleCmd : Cmd :=
  .mk "" [] [("a", .mk "z" [] []), ("a!", .mk "" [] [])]

/-- The empty template store used to instantiate closed statements. -/
def emptyTemplates : Templates :=
  ⟨[], [], [], []⟩

instance : IsTotal (String × Cmd) keyLe :=
  ⟨fun a b => le_total a.1 b.1⟩

instance : IsTrans (String × Cmd) keyLe :=
  ⟨fun _ _ _ hab hbc => le_trans hab hbc⟩

end PyComplete

namespace PyComplete

/-! ## Helper lemmas -/

theorem optOr_none {α : Type} (o : Option α) : o.or none = o := by
  cases o <;> rfl

theorem getLastQ_cons {α : Type} (x : α) (xs : List α) :
    (x :: xs).getLast? = xs.getLast?.or (some x) := by
  induction xs generalizing x with
  | nil => rfl
  | cons y ys ih =>
    rw [List.getLast?_cons_cons, ih y]
    cases hA : ys.getLast? <;> simp [ih, Option.or]

theorem dlookup_nil {α : Type} (q : String) :
    dlookup ([] : List (String × α)) q = none := rfl

theorem dlookup_cons {α : Type} (p : String × α) (rest : List (String × α))
    (q : String) :
    dlookup (p :: rest) q = if p.1 = q then some p.2 else dlookup rest q := by
  by_cases h : p.1 = q <;> simp [dlookup, List.find?, h]

theorem dlookup_dinsert {α : Type} (m : List (String × α)) (k : String) (v : α)
    (q : String) :
    dlookup (dinsert m k v) q = if q = k then some v else dlookup m q := by
  induction m with
  | nil =>
    by_cases h : q = k
    · simp [dinsert, dlookup_cons, h]
    · simp only [dinsert, dlookup_cons, dlookup_nil, if_neg h]
      rw [if_neg (fun hh : k = q => h hh.symm)]
  | cons p rest ih =>
    by_cases hp : p.1 = k
    · simp only [dinsert, if_pos hp, dlookup_cons]
      by_cases hq : q = k
      · simp [hq]
      · have hpq : ¬p.1 = q := fun hh => hq ((hp.symm.trans hh).symm)
        rw [if_neg (fun hh : k = q => hq hh.symm), if_neg hq, if_neg hpq]
    · simp only [dinsert, if_neg hp, dlookup_cons, ih]
      by_cases hq : p.1 = q
      · have hqk : ¬q = k := fun hh => hp (hq.trans hh)
        simp [hq, hqk]
      · simp [hq]

theorem dlookup_writes (ps : List (String × String)) (m : List (String × String))
    (k : String) :
    dlookup (ps.foldl (fun acc o => dinsert acc o.1 o.2) m) k
      = (((ps.filter fun p => p.1 = k).map fun p => p.2).getLast?).or (dlookup m k) := by
  induction ps generalizing m with
  | nil => simp
  | cons p ps ih =>
    rw [List.foldl_cons, ih]
    by_cases hp : p.1 = k
    · rw [List.filter_cons_of_pos (by simpa using hp), List.map_cons, getLastQ_cons,
        dlookup_dinsert, if_pos hp.symm]
      cases hX : ((ps.filter fun p => p.1 = k).map fun p => p.2).getLast? <;>
        simp [Option.or]
    · rw [List.filter_cons_of_neg (by simpa using hp), dlookup_dinsert,
        if_neg (fun h => hp h.symm)]

theorem map_fst_dinsert {α : Type} (m : List (String × α)) (k : String) (v : α) :
    (dinsert m k v).map (fun p => p.1) = sadd (m.map fun p => p.1) k := by
  induction m with
  | nil => simp [dinsert, sadd]
  | cons p rest ih =>
    by_cases hp : p.1 = k
    · simp [dinsert, sadd, hp]
    · by_cases hk : k ∈ rest.map fun p => p.1
      · simp [dinsert, sadd, hp, hk, ih, Ne.symm hp]
      · simp [dinsert, sadd, hp, hk, ih, Ne.symm hp]

theorem foldl_dinsert_map_fst (l : List (String × Cmd))
    (g : String × Cmd → List String) (m : List (String × List String)) :
    ((l.foldl (fun acc p => dinsert acc p.1 (g p)) m).map fun p => p.1)
      = l.foldl (fun s p => sadd s p.1) (m.map fun p => p.1) := by
  induction l generalizing m with
  | nil => rfl
  | cons p l ih => rw [List.foldl_cons, List.foldl_cons, ih, map_fst_dinsert]

theorem pysort_sorted (l : List String) :
    List.Sorted (fun a b => a ≤ b) (pysort l) :=
  List.sorted_insertionSort _ l

theorem sortPairsByKey_fst_sorted (l : List (String × Cmd)) :
    List.Sorted (fun a b => a ≤ b) ((sortPairsByKey l).map fun p => p.1) := by
  have h := List.sorted_insertionSort keyLe l
  rw [List.Sorted, List.pairwise_map]
  exact h

end PyComplete

namespace PyComplete

/-- C2: for a fixed Command tree, prog list, invocation path and explicitly
given dialect, `render` is a pure function of those inputs — in particular
it does not read the `SHELL` environment variable (the only other input of
the embedding), so two calls, even under different environments, return
byte-for-byte identical output. -/
theorem render_deterministic_env_independent (tpls : Templates) (co : Completer)
    (path : String) (env1 env2 : Option String) (sh : String) :
    render tpls co path env1 (some sh) = render tpls co path env2 (some sh) :=
  rfl

/-- C5: `_zsh_describe` equals the claim's pipeline: a double-quoted token of
the colon-escaped value; a truthy description is metacharacter-escaped, then
passed through the shell-argument-quoting step (`subprocess.list2cmdline`)
with double quotes stripped from its ends, and appended after `:`; a `None`
or empty description contributes nothing. The closed conjuncts exercise the
colon escaping and the quote-strip of a space-carrying description. -/
theorem zsh_describe_matches_spec (v : String) (d : Option String) :
    zshDescribe v d = zshDescribeSpec v d
    ∧ zshDescribe "a:b" none = "\"a\\:b\""
    ∧ zshDescribe "v" (some "x y") = "\"v:x y\""
    ∧ zshDescribe "v" (some "") = "\"v\"" := by
  refine ⟨?_, by decide, by decide, by decide⟩
  cases d with
  | none => rfl
  | some s =>
    by_cases hs : s = "" <;>
      simp [zshDescribe, zshDescribeSpec, hs, escapeColons, shellQuoteStripDquotes]

/-- C6: a shell argument outside the four supported names makes `render`
fail with the `ValueError` message listing exactly `bash, zsh, fish,
powershell`, and produce no output. -/
theorem render_unknown_shell (tpls : Templates) (co : Completer) (path : String)
    (env : Option String) (sh : String) (h : sh ∉ SUPPORTED_SHELLS) :
    render tpls co path env (some sh)
      = .error "[shell] argument must be one of bash, zsh, fish, powershell" := by
  show renderShell tpls co path sh = _
  unfold renderShell
  rw [if_neg h]
  rfl

/-- Witness for C6 at the concrete shell name `"tcsh"`. -/
theorem render_unknown_shell_witness :
    "tcsh" ∉ SUPPORTED_SHELLS ∧
      render emptyTemplates ⟨Cmd.mk "" [] [], ["app"]⟩ "/x" none (some "tcsh")
        = .error "[shell] argument must be one of bash, zsh, fish, powershell" :=
  ⟨by decide,
   render_unknown_shell emptyTemplates ⟨Cmd.mk "" [] [], ["app"]⟩ "/x" none
     "tcsh" (by decide)⟩

/-- C7: with the shell argument omitted, `render` resolves the shell through
`get_shell_type`, which fails with the explanatory message when the `SHELL`
environment variable is unset or empty and otherwise returns the last `/`
separated segment of its value. -/
theorem shell_type_resolution (tpls : Templates) (co : Completer) (path : String) :
    getShellType none
      = .error ("Could not read SHELL environment variable. Please specify your shell type by passing it as the first argument.")
    ∧ getShellType (some "")
      = .error ("Could not read SHELL environment variable. Please specify your shell type by passing it as the first argument.")
    ∧ (∀ s : String, s ≠ "" →
        getShellType (some s)
          = .ok (String.mk ((s.data.reverse.takeWhile fun c => c ≠ '/').reverse)))
    ∧ pyBasename "/bin/zsh" = "zsh" ∧ pyBasename "zsh" = "zsh"
    ∧ pyBasename "/usr/local/bin/fish" = "fish"
    ∧ (∀ env : Option String,
        render tpls co path env none
          = (getShellType env).bind fun sh => render tpls co path env (some sh)) := by
  refine ⟨rfl, rfl, ?_, by decide, by decide, by decide, fun env => rfl⟩
  intro s hs
  simp [getShellType, hs, pyBasename]

/-- Witness for C7 at `SHELL=/bin/zsh`. -/
theorem shell_type_resolution_witness :
    getShellType (some "/bin/zsh") = .ok "zsh" := by
  have h := (shell_type_resolution emptyTemplates ⟨Cmd.mk "" [] [], ["app"]⟩
    "/x").2.2.1 "/bin/zsh" (by decide)
  exact h.trans (congrArg Except.ok (by decide))

/-- C9: every fish option line spells the flag as `-l` followed by the
option name with its first two characters removed, whatever the spelling:
a `--long` option loses its dashes, while a short `-v` spelling is truncated
to the empty string rather than kept. -/
theorem fish_flag_truncation (s f cond nm h : String) :
    fishOptLine s f (nm, h)
      = "complete -c " ++ s ++ " -n '__fish" ++ f ++ "_no_subcommand' -l "
        ++ String.mk (nm.data.drop 2) ++ " -d '" ++ escSq h ++ "'"
    ∧ fishCmdOptLine s cond (nm, h)
      = "complete -c " ++ s ++ " -A -n '" ++ cond ++ "' -l "
        ++ String.mk (nm.data.drop 2) ++ " -d '" ++ escSq h ++ "'"
    ∧ pyDrop2 "-v" = "" ∧ pyDrop2 "--all" = "all" :=
  ⟨rfl, rfl, by decide, by decide⟩

/-- C10: `render` and every `render_*` method, read as state transformers,
return the `Completer` unchanged: the prog list and the selected getter
observed by a later call are those of the construction. -/
theorem render_state_frame (tpls : Templates) (co : Completer) (path : String)
    (env shell : Option String) (tpl : Template) :
    (match renderSt tpls co path env shell with
     | .ok (_, st) => st = co | .error _ => True)
    ∧ (match renderBashSt tpl co path with
       | .ok (_, st) => st = co | .error _ => True)
    ∧ (match renderZshSt tpl co path with
       | .ok (_, st) => st = co | .error _ => True)
    ∧ (match renderFishSt tpl co path with
       | .ok (_, st) => st = co | .error _ => True)
    ∧ (match renderPowershellSt tpl co path with
       | .ok (_, st) => st = co | .error _ => True) := by
  refine ⟨?_, ?_, ?_, ?_, ?_⟩
  · cases h : render tpls co path env shell <;> simp [renderSt, h, Except.map]
  · cases h : renderBash tpl co path <;> simp [renderBashSt, h, Except.map]
  · cases h : renderZsh tpl co path <;> simp [renderZshSt, h, Except.map]
  · cases h : renderFish tpl co path <;> simp [renderFishSt, h, Except.map]
  · cases h : renderPowershell tpl co path <;>
      simp [renderPowershellSt, h, Except.map]

end PyComplete

namespace PyComplete

/-- C3: in `render_zsh` the root-level option descriptions come from the one
shared `options_descriptions` dict, written by the root command's options and
then by every subcommand's options in traversal order, so the value looked
up for a name is the help of its last write; each subcommand's own case
block reads the per-command dict built from that command's options alone.
The closed conjuncts show a name `--x` carried with three different help
texts: the root-level block renders the last-written help while command
`a`'s block keeps its own. -/
theorem zsh_option_description_last_write (c : Cmd) (o : String) (sub : Cmd) :
    dlookup (zshOptionsDescriptions c) o
      = (((c.options ++ c.commands.flatMap fun p => p.2.options).filter
          fun p => p.1 = o).map fun p => p.2).getLast?
    ∧ dlookup (zshPerCommandDescs sub) o
      = ((sub.options.filter fun p => p.1 = o).map fun p => p.2).getLast?
    ∧ zshOptsSlot (Cmd.mk "" [("--x", "root help")]
        [("a", Cmd.mk "" [("--x", "a help")] []),
         ("b", Cmd.mk "" [("--x", "b help")] [])])
      = "\"--x:b help\""
    ∧ zshBlock (Cmd.mk "" [("--x", "root help")]
        [("a", Cmd.mk "" [("--x", "a help")] []),
         ("b", Cmd.mk "" [("--x", "b help")] [])]) "a"
      = ["            (a)", "            opts=(\"--x:a help\")", "            ;;"] := by
  refine ⟨?_, ?_, by decide, by decide⟩
  · rw [zshOptionsDescriptions, dlookup_writes, dlookup_nil, optOr_none]
  · rw [zshPerCommandDescs, dlookup_writes, dlookup_nil, optOr_none]

/-- C1 (amended): the command names of the bash command list and case
blocks, the zsh case blocks, the fish `cmds_names` list and every fish
sibling-block iteration, and the powershell `coms` list are ascending;
zsh's `coms` slot sorts the full quoted `name:description` tokens (not bare
names); powershell's per-command blocks are emitted in the tree's
first-occurrence insertion order, not sorted. -/
theorem rendered_command_lists_sorted (c : Cmd) (l : List (String × Cmd)) :
    List.Sorted (fun a b => a ≤ b) (bashCommandNames c)
    ∧ List.Sorted (fun a b => a ≤ b) (zshCommandNames c)
    ∧ List.Sorted (fun a b => a ≤ b) (pysort (zshCommandsDescriptions c))
    ∧ List.Sorted (fun a b => a ≤ b) (pysort (fishCmdNameSet c))
    ∧ List.Sorted (fun a b => a ≤ b) ((sortPairsByKey l).map fun p => p.1)
    ∧ List.Sorted (fun a b => a ≤ b) (pysort (commandNamesRaw c))
    ∧ psBlockNames c = pydedup (commandNamesRaw c) := by
  refine ⟨pysort_sorted _, pysort_sorted _, pysort_sorted _, pysort_sorted _,
    sortPairsByKey_fst_sorted l, pysort_sorted _, ?_⟩
  rw [psBlockNames, commandsOptionsDict, foldl_dinsert_map_fst, pydedup,
    commandNamesRaw, List.foldl_map]
  rfl

/-- C1 counterexample, both violated parts. Powershell: on the tree whose
`get_commands()` order is `b` before `a`, `render_powershell`'s
`command_list` emits the `"b"` block before the `"a"` block — its
per-command blocks are not sorted by command name. Zsh: on the tree with
commands `a` (help `z`) and `a!` (no help), the `coms` slot lists the
token of command `a!` before the token of command `a`, although
`"a" < "a!"` — the command names appearing in zsh's command list are in
the order `a!`, `a`, which is not ascending. -/
theorem command_list_ordering_counterexample :
    psCommandListSlot psCounterexampleCmd
      = "                \"b\" \x7b $opts = @() \x7d\n                \"a\" \x7b $opts = @() \x7d"
    ∧ psBlockNames psCounterexampleCmd = ["b", "a"]
    ∧ ¬ List.Sorted (fun a b => a ≤ b) (psBlockNames psCounterexampleCmd)
    ∧ pysort (zshCommandsDescriptions zshCounterexampleCmd)
      = [zshDescribe "a!" (some ""), zshDescribe "a" (some "z")]
    ∧ zshComsSlot zshCounterexampleCmd = "\"a!\" \"a:z\""
    ∧ ("a" : String) < "a!"
    ∧ ¬ List.Sorted (fun a b => a ≤ b) (["a!", "a"] : List String) := by
  have ht : zshCommandsDescriptions zshCounterexampleCmd
      = ["\"a:z\"", "\"a!\""] := by decide
  have hlt : ("\"a!\"" : String) < "\"a:z\"" :=
    String.lt_iff_toList_lt.mpr (by decide)
  have hsort : pysort ["\"a:z\"", "\"a!\""] = ["\"a!\"", "\"a:z\""] := by
    simp only [pysort, List.insertionSort, List.orderedInsert]
    rw [if_neg (not_le.mpr hlt)]
  have hna : ("a" : String) < "a!" := String.lt_iff_toList_lt.mpr (by decide)
  refine ⟨by decide, by decide, fun hs => ?_, ?_, ?_, hna, fun hs2 => ?_⟩
  · rw [(by decide : psBlockNames psCounterexampleCmd = ["b", "a"])] at hs
    have hab : ("a" : String) < "b" := String.lt_iff_toList_lt.mpr (by decide)
    exact absurd (List.rel_of_sorted_cons hs "a" (by simp)) (not_le.mpr hab)
  · rw [ht, hsort]
    decide
  · show pyJoin " " (pysort (zshCommandsDescriptions zshCounterexampleCmd)) = _
    rw [ht, hsort]
    decide
  · exact absurd (List.rel_of_sorted_cons hs2 "a" (by simp)) (not_le.mpr hna)

/-- C8: a tree with no options and no subcommands renders without error in
all four dialects, and every option, command-name and per-command-block slot
it fills is the empty string. -/
theorem empty_tree_renders (tpls : Templates) (hp p0 path s1 s2 : String)
    (rest : List String) (env : Option String) :
    (∃ out, render tpls ⟨Cmd.mk hp [] [], p0 :: rest⟩ path env (some "bash")
      = .ok out)
    ∧ (∃ out, render tpls ⟨Cmd.mk hp [] [], p0 :: rest⟩ path env (some "zsh")
      = .ok out)
    ∧ (∃ out, render tpls ⟨Cmd.mk hp [] [], p0 :: rest⟩ path env (some "fish")
      = .ok out)
    ∧ (∃ out, render tpls ⟨Cmd.mk hp [] [], p0 :: rest⟩ path env
        (some "powershell") = .ok out)
    ∧ bashOptsSlot (Cmd.mk hp [] []) = ""
    ∧ bashComsSlot (Cmd.mk hp [] []) = ""
    ∧ bashCommandListSlot (Cmd.mk hp [] []) = ""
    ∧ zshOptsSlot (Cmd.mk hp [] []) = ""
    ∧ zshComsSlot (Cmd.mk hp [] []) = ""
    ∧ zshCommandListSlot (Cmd.mk hp [] []) = ""
    ∧ fishOptsSlot (Cmd.mk hp [] []) s1 s2 = ""
    ∧ fishCmdNamesSlot (Cmd.mk hp [] []) = ""
    ∧ fishCmdsSlot (Cmd.mk hp [] []) s1 s2 = ""
    ∧ psOptsSlot (Cmd.mk hp [] []) = ""
    ∧ psComsSlot (Cmd.mk hp [] []) = ""
    ∧ psCommandListSlot (Cmd.mk hp [] []) = "" :=
  ⟨⟨_, rfl⟩, ⟨_, rfl⟩, ⟨_, rfl⟩, ⟨_, rfl⟩, rfl, rfl, rfl, rfl, rfl, rfl,
   rfl, rfl, rfl, rfl, rfl, rfl⟩

theorem dashmap_filter (l : List Char) :
    ((l.flatMap fun x => if x = '-' then ['_'] else [x]).filter isFnChar)
      = ((l.map fun c => if c = '-' then '_' else c).filter isFnChar) := by
  induction l with
  | nil => rfl
  | cons c cs ih =>
    by_cases hc : c = '-' <;>
      simp only [List.flatMap_cons, List.map_cons, if_pos, if_neg, hc,
        if_true, if_false, List.singleton_append, List.filter_cons, ih]

theorem sanitize_no_lowercase (name : String) :
    sanitizeForFunctionName name = sanitizeAmended name :=
  congrArg String.mk (dashmap_filter name.data)

theorem flatMap_byteHex_length (l : List Nat) :
    (l.flatMap MD5.byteHex).length = 2 * l.length := by
  induction l with
  | nil => rfl
  | cons b bs ih => simp [MD5.byteHex, ih]; omega

theorem md5Digest_length (msg : List Nat) :
    (MD5.md5Digest msg).length = 16 := by
  simp [MD5.md5Digest, MD5.le4]

/-- C4 (amended): the completion-function name is
`"_" + sanitize(script_name) + "_" + md5hex(script_path)[0:16] + "_complete"`
where the digest is 128-bit (32 hex characters) and `sanitize` maps `-` to
`_` and strips characters outside `[A-Za-z0-9_]` — without lowercasing. -/
theorem function_name_formula (name path : String) :
    generateFunctionName name path
      = "_" ++ sanitizeAmended name ++ "_" ++ pyTake (MD5.md5hex path) 16
        ++ "_complete"
    ∧ (MD5.md5hex path).length = 32 := by
  constructor
  · unfold generateFunctionName
    rw [sanitize_no_lowercase]
  · have h0 : (MD5.md5hex path).length
        = ((MD5.md5Digest (MD5.utf8Bytes path)).flatMap MD5.byteHex).length := rfl
    rw [h0, flatMap_byteHex_length, md5Digest_length]

/-- C4 counterexample: for the script name `"App"` the code keeps the capital
letter, so the claimed formula (which lowercases in its sanitize step)
disagrees with `_generate_function_name`. -/
theorem function_name_not_lowercased :
    generateFunctionName "App" "/tmp/app.py"
      ≠ functionNameClaimed "App" "/tmp/app.py" := by
  decide

end PyComplete
